import Mathlib

/-!
Shallow embedding of the core game logic of the Color Path grid-puzzle game
(src/main.js): tile model (`parseTile`), player state (`Player`), level
loading (`LevelManager.loadLevel` / `getTile` / `isWalkable` /
`calculateStars`), and move resolution (`Game.movePlayer` /
`Game.handleTileInteraction` / `Game.undoMove`).

Conventions of the embedding:
* JS numbers holding grid coordinates and move deltas are modelled as `Int`;
  counters that the code keeps nonnegative (`keys`, `moveCount`) as `Nat`
  (`Math.max(0, n - 1)` coincides with truncated subtraction on `Nat`).
* The JS array `moveHistory` (push/pop at the end) is modelled as a list
  whose head is the most recently pushed snapshot.
* `this.grid` (an array of arrays of tile objects mutated in place) is
  modelled as a total function `Nat → Nat → Tile` indexed row-major as
  `tiles y x`; an in-place field mutation of the tile object at `(x, y)`
  becomes a pointwise functional update at `(y, x)`.
* The comparison `moveCount <= target * 1.3` is modelled exactly over the
  rationals, cleared of denominators: `10 * moveCount ≤ 13 * target`.
* The blocking `prompt` of a locked math gate is an external input; stepping
  on a locked math gate yields the `Outcome.resolving` marker with no state
  change, the answer handling being outside the move-resolution step.
-/

namespace ColorPath

/-- The color tags of src/main.js `COLORS`. -/
inductive Color where
  | red
  | blue
  | yellow
  | neutral
deriving DecidableEq, Repr

/-- The string value of a color, as stored in `COLORS` (used in death
messages interpolating `tile.color`). -/
def Color.str : Color → String
  | .red => "red"
  | .blue => "blue"
  | .yellow => "yellow"
  | .neutral => "neutral"

/-- The tile kinds of src/main.js `TILE_TYPES`. -/
inductive TileType where
  | empty
  | ground
  | obstacle
  | colorChange
  | start
  | goal
  | mathGate
  | key
  | door
  | teleport
  | fragile
deriving DecidableEq, Repr

/-- A tile object as produced by `parseTile` and mutated at runtime.
Fields absent on a given JS tile object are modelled by their defaults. -/
structure Tile where
  type : TileType
  color : Option Color
  locked : Bool := false
  collected : Bool := false
  used : Bool := false
  question : Option String := none
  answer : Option Int := none
deriving DecidableEq, Repr

instance : Inhabited Tile := ⟨{ type := .ground, color := some .neutral }⟩

/-- src/main.js `parseTile`: maps a layout token to a tile object; any
unrecognized token falls through to neutral ground. -/
def parseTile (tileStr : String) : Tile :=
  if tileStr = "O" then { type := .obstacle, color := none }
  else if tileStr = "E" then { type := .empty, color := none }
  else if tileStr = "S" then { type := .start, color := some .neutral }
  else if tileStr = "G" then { type := .goal, color := some .neutral }
  else if tileStr = "N" then { type := .ground, color := some .neutral }
  else if tileStr = "R" then { type := .ground, color := some .red }
  else if tileStr = "B" then { type := .ground, color := some .blue }
  else if tileStr = "Y" then { type := .ground, color := some .yellow }
  else if tileStr = "CR" then { type := .colorChange, color := some .red }
  else if tileStr = "CB" then { type := .colorChange, color := some .blue }
  else if tileStr = "CY" then { type := .colorChange, color := some .yellow }
  else if tileStr = "MG" then { type := .mathGate, color := some .neutral, locked := true }
  else if tileStr = "K" then { type := .key, color := some .neutral, collected := false }
  else if tileStr = "D" then { type := .door, color := some .neutral, locked := true }
  else if tileStr = "F" then { type := .fragile, color := some .neutral, used := false }
  else { type := .ground, color := some .neutral }

/-- One entry of `moveHistory`: the snapshot pushed by `Player.moveTo`. -/
structure Snapshot where
  x : Int
  y : Int
  color : Color
  keys : Nat
deriving DecidableEq, Repr

/-- src/main.js `Player`: position, color, inventory, move counter and
undo history. -/
structure Player where
  startX : Int
  startY : Int
  x : Int
  y : Int
  color : Color
  initialColor : Color
  keys : Nat
  moveCount : Nat
  moveHistory : List Snapshot
deriving DecidableEq, Repr

namespace Player

/-- Constructor `new Player(startX, startY, initialColor)`. -/
def mk' (startX startY : Int) (initialColor : Color) : Player :=
  { startX := startX, startY := startY, x := startX, y := startY
    color := initialColor, initialColor := initialColor
    keys := 0, moveCount := 0, moveHistory := [] }

/-- Method `Player.moveTo(x, y)`: push the current snapshot, update the position,
increment the move counter. -/
def moveTo (p : Player) (x y : Int) : Player :=
  { p with
    moveHistory := ⟨p.x, p.y, p.color, p.keys⟩ :: p.moveHistory
    x := x
    y := y
    moveCount := p.moveCount + 1 }

/-- Method `Player.undo()`: pop the last snapshot and restore position, color and
keys; `Math.max(0, moveCount - 1)`; returns whether an undo happened. -/
def undo (p : Player) : Player × Bool :=
  match p.moveHistory with
  | [] => (p, false)
  | lastState :: rest =>
      ({ p with
          x := lastState.x
          y := lastState.y
          color := lastState.color
          keys := lastState.keys
          moveCount := p.moveCount - 1
          moveHistory := rest }, true)

/-- Method `Player.setColor(color)`. -/
def setColor (p : Player) (color : Color) : Player :=
  { p with color := color }

/-- Method `Player.addKey()`. -/
def addKey (p : Player) : Player :=
  { p with keys := p.keys + 1 }

/-- Method `Player.useKey()`: decrement if a key is available, reporting success. -/
def useKey (p : Player) : Player × Bool :=
  if p.keys > 0 then ({ p with keys := p.keys - 1 }, true) else (p, false)

/-- Method `Player.reset()`: back to the start position and initial color, clearing
keys, move count and history. -/
def reset (p : Player) : Player :=
  { p with
    x := p.startX
    y := p.startY
    color := p.initialColor
    keys := 0
    moveCount := 0
    moveHistory := [] }

end Player

/-- One entry of the `mathGates` metadata of a level. -/
structure MathGateDef where
  x : Int
  y : Int
  question : String
  answer : Int
deriving DecidableEq, Repr

/-- A level descriptor from the `LEVELS` array. -/
structure Level where
  name : String
  width : Nat
  height : Nat
  startPos : Int × Int
  goalPos : Int × Int
  targetMoves : Option Nat
  mathGates : List MathGateDef := []
  grid : List (List String)
deriving Repr

instance : Inhabited Level :=
  ⟨{ name := "", width := 0, height := 0, startPos := (0, 0), goalPos := (0, 0)
     targetMoves := none, grid := [] }⟩

/-- The tile grid built by `loadLevel`: `this.grid[y][x]`, modelled as a
total function `tiles y x`. -/
def Tiles := Nat → Nat → Tile

/-- Method `LevelManager.getTile(x, y)` specialised to a raw grid: the bounds check
against the width/height of the current level, then the lookup `grid[y][x]`. -/
def tileAt (width height : Nat) (tiles : Tiles) (x y : Int) : Option Tile :=
  if 0 ≤ x ∧ x < (width : Int) ∧ 0 ≤ y ∧ y < (height : Int) then
    some (tiles y.toNat x.toNat)
  else
    none

/-- Overwrite the tile object stored at `(x, y)`: an in-place mutation of a
tile field becomes a pointwise update of `tiles` at `(y, x)`. -/
def setTile (tiles : Tiles) (x y : Int) (t : Tile) : Tiles :=
  fun y' x' => if y' = y.toNat ∧ x' = x.toNat then t else tiles y' x'

/-- The parsing loop of `loadLevel`: `this.grid[y][x] = parseTile(levelConfig.grid[y][x])`.
A missing row or cell of the descriptor corresponds to no token matching in
`parseTile` and falls to its neutral-ground default. -/
def parseGrid (lv : Level) : Tiles :=
  fun y x => parseTile ((lv.grid.getD y []).getD x "")

/-- The `mathGates` loop of `loadLevel`, generalized over the gate list: for
each gate, if `getTile(gate.x, gate.y)` is a math-gate tile, store the
question and answer on it; otherwise the entry is skipped. -/
def applyMathGatesAux (width height : Nat) (gates : List MathGateDef) (tiles : Tiles) : Tiles :=
  gates.foldl
    (fun acc gate =>
      match tileAt width height acc gate.x gate.y with
      | some tile =>
          if tile.type = .mathGate then
            setTile acc gate.x gate.y
              { tile with question := some gate.question, answer := some gate.answer }
          else acc
      | none => acc)
    tiles

/-- The `mathGates` loop of `loadLevel` for a level descriptor. -/
def applyMathGates (lv : Level) (tiles : Tiles) : Tiles :=
  applyMathGatesAux lv.width lv.height lv.mathGates tiles

/-- Method `LevelManager.loadLevel(levelIndex)` over a `LEVELS` array: rejects an
out-of-range index (returns `none`, the `false` branch), otherwise parses
the grid and applies the math-gate metadata. -/
def loadLevel (levels : List Level) (levelIndex : Int) : Option Tiles :=
  if levelIndex < 0 ∨ (levels.length : Int) ≤ levelIndex then
    none
  else
    let lv := levels.getD levelIndex.toNat default
    some (applyMathGates lv (parseGrid lv))

/-- Method `LevelManager.getTargetMoves()`: `this.currentLevel.targetMoves || 999`. -/
def getTargetMoves (lv : Level) : Nat :=
  match lv.targetMoves with
  | some t => if t = 0 then 999 else t
  | none => 999

/-- Method `LevelManager.calculateStars(moveCount)` with the target made explicit:
3 stars if `moveCount <= target`, 2 if `moveCount <= target * 1.3`
(modelled exactly as `10 * moveCount ≤ 13 * target`), else 1. -/
def calculateStars (moveCount target : Nat) : Nat :=
  if moveCount ≤ target then 3
  else if 10 * moveCount ≤ 13 * target then 2
  else 1

/-- The mutable state the move-resolution step touches: the current level
dimensions, its tile grid, and the player. -/
structure GameState where
  width : Nat
  height : Nat
  tiles : Tiles
  player : Player

/-- Method `LevelManager.getTile(x, y)` on the game state. -/
def GameState.getTile (g : GameState) (x y : Int) : Option Tile :=
  tileAt g.width g.height g.tiles x y

/-- Method `LevelManager.isWalkable(x, y)`: in bounds and not an obstacle. -/
def GameState.isWalkable (g : GameState) (x y : Int) : Bool :=
  match g.getTile x y with
  | none => false
  | some tile => tile.type ≠ .obstacle

/-- The outcome of one move-resolution step, read off the control flow of
`Game.movePlayer` / `Game.handleTileInteraction`: `blocked` is the early
return on a non-walkable target, `died r` a `playerDied(r)` call,
`completed` a `levelCompleted()` call, `resolving` a `showMathPuzzle`
call (its answer is an external input), and `continued` anything else. -/
inductive Outcome where
  | blocked
  | continued
  | died (reason : String)
  | completed
  | resolving
deriving DecidableEq, Repr

/-- Method `Game.handleTileInteraction(tile)`: dispatch on the kind of the tile at
the (post-move) player position, mutating player and tile as the
corresponding case does. -/
def handleTileInteraction (g : GameState) : GameState × Outcome :=
  match g.getTile g.player.x g.player.y with
  | none => (g, .continued)
  | some tile =>
    match tile.type with
    | .empty => (g, .died "You fell into a pit!")
    | .ground =>
        if tile.color ≠ some g.player.color ∧ tile.color ≠ some .neutral then
          (g, .died ("You can\x27t walk on " ++ ((tile.color.map Color.str).getD "") ++ " ground!"))
        else
          (g, .continued)
    | .fragile =>
        if tile.used then
          (g, .died "The fragile tile crumbled beneath you!")
        else
          ({ g with tiles := setTile g.tiles g.player.x g.player.y { tile with used := true } }, .continued)
    | .colorChange =>
        ({ g with player := g.player.setColor ((tile.color).getD g.player.color) }, .continued)
    | .key =>
        if !tile.collected then
          ({ g with
              tiles := setTile g.tiles g.player.x g.player.y { tile with collected := true }
              player := g.player.addKey }, .continued)
        else
          (g, .continued)
    | .door =>
        if tile.locked then
          match g.player.useKey with
          | (p, true) =>
              ({ g with
                  player := p
                  tiles := setTile g.tiles g.player.x g.player.y { tile with locked := false } }, .continued)
          | (p, false) =>
              ({ g with player := p }, .died "You need a key to open this door!")
        else
          (g, .continued)
    | .mathGate =>
        if tile.locked then (g, .resolving) else (g, .continued)
    | .goal => (g, .completed)
    | .obstacle => (g, .continued)
    | .start => (g, .continued)
    | .teleport => (g, .continued)

/-- Method `Game.movePlayer(dx, dy)`: compute the target, return early (`blocked`)
if it is not walkable, otherwise commit the move with `Player.moveTo` and
resolve the target tile. -/
def movePlayer (g : GameState) (dx dy : Int) : GameState × Outcome :=
  if g.isWalkable (g.player.x + dx) (g.player.y + dy) then
    handleTileInteraction
      { g with player := g.player.moveTo (g.player.x + dx) (g.player.y + dy) }
  else
    (g, .blocked)

/-- Method `Game.undoMove()`: `this.player.undo()`, the rest of the method being
UI-only. -/
def undoMove (g : GameState) : GameState :=
  { g with player := (g.player.undo).1 }

/-! Concrete evaluation data: a small 8 × 2 level exercising every tile kind,
used to instantiate the theorems below on explicit inputs. -/

/-- A concrete tile grid: row 0 is start, red ground, blue ground, neutral
ground, fresh fragile, uncollected key, locked door, goal; row 1 is obstacle,
pit, blue color changer, used fragile, unlocked door, locked math gate, and
neutral ground elsewhere. -/
def demoTiles : Tiles := fun y x =>
  if y = 0 then
    if x = 0 then { type := .start, color := some .neutral }
    else if x = 1 then { type := .ground, color := some .red }
    else if x = 2 then { type := .ground, color := some .blue }
    else if x = 3 then { type := .ground, color := some .neutral }
    else if x = 4 then { type := .fragile, color := some .neutral, used := false }
    else if x = 5 then { type := .key, color := some .neutral, collected := false }
    else if x = 6 then { type := .door, color := some .neutral, locked := true }
    else { type := .goal, color := some .neutral }
  else
    if x = 0 then { type := .obstacle, color := none }
    else if x = 1 then { type := .empty, color := none }
    else if x = 2 then { type := .colorChange, color := some .blue }
    else if x = 3 then { type := .fragile, color := some .neutral, used := true }
    else if x = 4 then { type := .door, color := some .neutral, locked := false }
    else if x = 5 then { type := .mathGate, color := some .neutral, locked := true }
    else { type := .ground, color := some .neutral }

/-- A concrete game state over `demoTiles` with the player placed at
`(px, py)` carrying color `c` and `keys` keys. -/
def demoState (px py : Int) (c : Color) (keys : Nat) : GameState :=
  { width := 8, height := 2, tiles := demoTiles
    player := { Player.mk' 0 0 c with x := px, y := py, keys := keys } }

/-! Helper lemmas shared by the claim theorems. -/

/-- Replacing the player leaves tile lookup unchanged. -/
theorem getTile_set_player (g : GameState) (p : Player) (x y : Int) :
    GameState.getTile { g with player := p } x y = g.getTile x y := rfl

/-- A successful tile lookup pins the coordinates inside the grid bounds. -/
theorem getTile_some_bounds (g : GameState) (x y : Int) (t : Tile)
    (h : g.getTile x y = some t) :
    0 ≤ x ∧ x < (g.width : Int) ∧ 0 ≤ y ∧ y < (g.height : Int) := by
  unfold GameState.getTile tileAt at h
  split at h
  · assumption
  · exact absurd h (by simp)

/-- A successful tile lookup returns the stored tile. -/
theorem getTile_some_val (g : GameState) (x y : Int) (t : Tile)
    (h : g.getTile x y = some t) : g.tiles y.toNat x.toNat = t := by
  unfold GameState.getTile tileAt at h
  split at h
  · exact (Option.some_inj.mp h)
  · exact absurd h (by simp)

/-- Looking up the very cell just overwritten by `setTile` (at in-bounds
coordinates) returns the new tile. -/
theorem tileAt_setTile_self (g : GameState) (x y : Int) (t t' : Tile)
    (h : g.getTile x y = some t) :
    tileAt g.width g.height (setTile g.tiles x y t') x y = some t' := by
  obtain ⟨hx0, hxw, hy0, hyh⟩ := getTile_some_bounds g x y t h
  unfold tileAt setTile
  rw [if_pos ⟨hx0, hxw, hy0, hyh⟩, if_pos ⟨rfl, rfl⟩]

/-- On a walkable target, `movePlayer` reduces to tile interaction after the
committed `moveTo`. -/
theorem movePlayer_eq_interaction (g : GameState) (dx dy : Int) (t : Tile)
    (ht : g.getTile (g.player.x + dx) (g.player.y + dy) = some t)
    (hob : t.type ≠ .obstacle) :
    movePlayer g dx dy =
      handleTileInteraction
        { g with player := g.player.moveTo (g.player.x + dx) (g.player.y + dy) } := by
  unfold movePlayer GameState.isWalkable
  rw [ht]
  simp [hob]

/-- Tile interaction never moves the player, never touches the move counter
or the history, and never resizes the grid. -/
theorem interaction_preserves_motion (g : GameState) :
    (handleTileInteraction g).1.player.x = g.player.x ∧
    (handleTileInteraction g).1.player.y = g.player.y ∧
    (handleTileInteraction g).1.player.moveCount = g.player.moveCount ∧
    (handleTileInteraction g).1.player.moveHistory = g.player.moveHistory ∧
    (handleTileInteraction g).1.width = g.width ∧
    (handleTileInteraction g).1.height = g.height := by
  unfold handleTileInteraction
  cases hg : g.getTile g.player.x g.player.y with
  | none => simp [hg]
  | some tile =>
    simp only [hg]
    cases htype : tile.type <;> simp only [htype]
    case door =>
      split
      · rcases hk : g.player.useKey with ⟨p, b⟩
        have hp : p.x = g.player.x ∧ p.y = g.player.y ∧
            p.moveCount = g.player.moveCount ∧
            p.moveHistory = g.player.moveHistory := by
          unfold Player.useKey at hk
          split at hk <;> (cases hk; exact ⟨rfl, rfl, rfl, rfl⟩)
        cases b <;> simp [hp.1, hp.2.1, hp.2.2.1, hp.2.2.2]
      · simp
    all_goals
      first
        | (split <;> simp [Player.setColor, Player.addKey])
        | simp [Player.setColor, Player.addKey]

/-- C1: a move resolved onto a Ground tile dies exactly when the tile color
differs from the current player color and is not neutral; otherwise it
continues with the player color, keys, and every tile flag unchanged. -/
theorem ground_move_dies_iff_mismatch (g : GameState) (dx dy : Int) (t : Tile)
    (ht : g.getTile (g.player.x + dx) (g.player.y + dy) = some t)
    (hg : t.type = TileType.ground) :
    ((t.color ≠ some g.player.color ∧ t.color ≠ some Color.neutral) →
      (movePlayer g dx dy).2 =
        Outcome.died ("You can\x27t walk on " ++ ((t.color.map Color.str).getD "") ++ " ground!")) ∧
    ((t.color = some g.player.color ∨ t.color = some Color.neutral) →
      (movePlayer g dx dy).2 = Outcome.continued ∧
      (movePlayer g dx dy).1.player.color = g.player.color ∧
      (movePlayer g dx dy).1.player.keys = g.player.keys ∧
      (movePlayer g dx dy).1.tiles = g.tiles) := by
  have hob : t.type ≠ TileType.obstacle := by rw [hg]; simp
  have ht2 : tileAt g.width g.height g.tiles (g.player.x + dx) (g.player.y + dy) = some t := ht
  rw [movePlayer_eq_interaction g dx dy t ht hob]
  simp only [handleTileInteraction, GameState.getTile, Player.moveTo]
  rw [ht2]
  simp only [hg]
  constructor
  · intro hcol
    rw [if_pos hcol]
  · intro hcol
    rw [if_neg (by tauto)]
    exact ⟨rfl, rfl, rfl, rfl⟩

/-- Witness for C1 at concrete inputs: a red player stepping right onto red
ground continues; stepping onto blue ground while red dies. -/
theorem ground_move_dies_iff_mismatch_witness :
    (demoState 0 0 Color.red 0).getTile
        ((demoState 0 0 Color.red 0).player.x + 1)
        ((demoState 0 0 Color.red 0).player.y + 0) =
      some { type := TileType.ground, color := some Color.red } ∧
    (movePlayer (demoState 0 0 Color.red 0) 1 0).2 = Outcome.continued ∧
    (movePlayer (demoState 1 0 Color.red 0) 1 0).2 =
      Outcome.died "You can\x27t walk on blue ground!" := by
  refine ⟨by decide, ?_, ?_⟩
  · exact ((ground_move_dies_iff_mismatch (demoState 0 0 Color.red 0) 1 0
      { type := TileType.ground, color := some Color.red } (by decide) rfl).2
        (Or.inl (by decide))).1
  · exact (ground_move_dies_iff_mismatch (demoState 1 0 Color.red 0) 1 0
      { type := TileType.ground, color := some Color.blue } (by decide) rfl).1
        (by decide)

/-- C2 counterexample: the claim inverts the ground rule. On the code, a red
player stepping onto red ground continues (the claim says it dies), and a
neutral-colored player stepping onto blue ground dies (the claim says a
neutral actor never dies on ground). -/
theorem ground_same_color_counterexample :
    demoTiles 0 1 = { type := TileType.ground, color := some Color.red } ∧
    (demoState 0 0 Color.red 0).player.color = Color.red ∧
    (movePlayer (demoState 0 0 Color.red 0) 1 0).2 = Outcome.continued ∧
    (demoState 3 0 Color.neutral 0).player.color = Color.neutral ∧
    (movePlayer (demoState 3 0 Color.neutral 0) (-1) 0).2 =
      Outcome.died "You can\x27t walk on blue ground!" := by
  decide

/-- C2 amended: a Ground tile continues exactly when its color matches the
player color or is neutral, and dies otherwise; in particular an actor
whose color is neutral dies on every non-neutral Ground tile. -/
theorem ground_move_continues_iff_match (g : GameState) (dx dy : Int) (t : Tile)
    (ht : g.getTile (g.player.x + dx) (g.player.y + dy) = some t)
    (hg : t.type = TileType.ground) :
    ((movePlayer g dx dy).2 = Outcome.continued ↔
      (t.color = some g.player.color ∨ t.color = some Color.neutral)) ∧
    (g.player.color = Color.neutral → t.color ≠ some Color.neutral →
      (movePlayer g dx dy).2 =
        Outcome.died ("You can\x27t walk on " ++ ((t.color.map Color.str).getD "") ++ " ground!")) := by
  have hob : t.type ≠ TileType.obstacle := by rw [hg]; simp
  have ht2 : tileAt g.width g.height g.tiles (g.player.x + dx) (g.player.y + dy) = some t := ht
  rw [movePlayer_eq_interaction g dx dy t ht hob]
  simp only [handleTileInteraction, GameState.getTile, Player.moveTo]
  rw [ht2]
  simp only [hg]
  constructor
  · constructor
    · intro hout
      by_contra hcol
      rw [if_pos (by tauto)] at hout
      exact Outcome.noConfusion hout
    · intro hcol
      rw [if_neg (by tauto)]
  · intro hneu hcol
    rw [if_pos ⟨by rw [hneu]; exact hcol, hcol⟩]

/-- Witness for the amended C2 at concrete inputs: a neutral player stepping
left onto blue ground dies. -/
theorem ground_move_continues_iff_match_witness :
    (demoState 3 0 Color.neutral 0).player.color = Color.neutral ∧
    (movePlayer (demoState 3 0 Color.neutral 0) (-1) 0).2 =
      Outcome.died "You can\x27t walk on blue ground!" := by
  refine ⟨rfl, ?_⟩
  exact (ground_move_continues_iff_match (demoState 3 0 Color.neutral 0) (-1) 0
    { type := TileType.ground, color := some Color.blue } (by decide) rfl).2
      rfl (by decide)

/-- C3: a move to an out-of-bounds or Obstacle target returns blocked with
the whole state unchanged; a move to a walkable target is committed —
snapshot pushed, coordinate updated, move count incremented by one — before
tile dispatch, hence regardless of the resolved outcome. -/
theorem movePlayer_blocked_or_committed (g : GameState) (dx dy : Int) :
    ((g.getTile (g.player.x + dx) (g.player.y + dy) = none ∨
      (∃ t, g.getTile (g.player.x + dx) (g.player.y + dy) = some t ∧
        t.type = TileType.obstacle)) →
      movePlayer g dx dy = (g, Outcome.blocked)) ∧
    (g.isWalkable (g.player.x + dx) (g.player.y + dy) = true →
      (movePlayer g dx dy).1.player.x = g.player.x + dx ∧
      (movePlayer g dx dy).1.player.y = g.player.y + dy ∧
      (movePlayer g dx dy).1.player.moveCount = g.player.moveCount + 1 ∧
      (movePlayer g dx dy).1.player.moveHistory =
        ⟨g.player.x, g.player.y, g.player.color, g.player.keys⟩ ::
          g.player.moveHistory) := by
  constructor
  · intro h
    unfold movePlayer GameState.isWalkable
    rcases h with h | ⟨t, ht, hobs⟩
    · rw [h]
      simp
    · rw [ht]
      simp [hobs]
  · intro hw
    unfold movePlayer
    rw [if_pos hw]
    have hm := interaction_preserves_motion
      { g with player := g.player.moveTo (g.player.x + dx) (g.player.y + dy) }
    exact ⟨hm.1, hm.2.1, hm.2.2.1, hm.2.2.2.1⟩

/-- Witness for C3 at concrete inputs: moving off the left edge is blocked
with no change; moving onto a pit commits the move (move count 1, snapshot
pushed) and then dies. -/
theorem movePlayer_blocked_or_committed_witness :
    movePlayer (demoState 0 0 Color.red 0) (-1) 0 =
      (demoState 0 0 Color.red 0, Outcome.blocked) ∧
    (movePlayer (demoState 1 0 Color.red 0) 0 1).1.player.moveCount = 1 ∧
    (movePlayer (demoState 1 0 Color.red 0) 0 1).1.player.y = 1 ∧
    (movePlayer (demoState 1 0 Color.red 0) 0 1).2 =
      Outcome.died "You fell into a pit!" := by
  refine ⟨?_, ?_, ?_, by decide⟩
  · exact (movePlayer_blocked_or_committed (demoState 0 0 Color.red 0) (-1) 0).1
      (Or.inl (by decide))
  · exact ((movePlayer_blocked_or_committed (demoState 1 0 Color.red 0) 0 1).2
      (by decide)).2.2.1
  · exact ((movePlayer_blocked_or_committed (demoState 1 0 Color.red 0) 0 1).2
      (by decide)).2.1

/-- C4: undo is a left inverse of moveTo — a move followed by an undo
restores the entire player state (coordinate, color, keys, and the move
count back down by exactly one), and undo on an empty history reports false
and changes nothing. -/
theorem undo_left_inverse_of_moveTo (p : Player) (x y : Int) :
    (p.moveTo x y).undo = (p, true) ∧
    (p.moveHistory = [] → p.undo = (p, false)) := by
  refine ⟨rfl, fun h => ?_⟩
  unfold Player.undo
  rw [h]

/-- Witness for C4 at concrete inputs: a fresh player moved to (3, 4) and
undone is restored exactly, and undo on the fresh player reports false. -/
theorem undo_left_inverse_of_moveTo_witness :
    ((Player.mk' 0 0 Color.red).moveTo 3 4).undo = (Player.mk' 0 0 Color.red, true) ∧
    (Player.mk' 0 0 Color.red).moveHistory = [] ∧
    (Player.mk' 0 0 Color.red).undo = (Player.mk' 0 0 Color.red, false) := by
  refine ⟨(undo_left_inverse_of_moveTo (Player.mk' 0 0 Color.red) 3 4).1, rfl,
    (undo_left_inverse_of_moveTo (Player.mk' 0 0 Color.red) 3 4).2 rfl⟩

/-- C8 counterexample: `movePlayer` performs no unit-step validation. A
two-cell horizontal request and a diagonal request onto walkable targets are
both committed (position updated, move counted), where the claim requires a
rejected no-op. -/
theorem nonunit_move_rejected_counterexample :
    (movePlayer (demoState 1 0 Color.red 0) 2 0).1.player.x = 3 ∧
    (movePlayer (demoState 1 0 Color.red 0) 2 0).1.player.moveCount = 1 ∧
    (movePlayer (demoState 1 0 Color.red 0) 2 0).2 = Outcome.continued ∧
    (movePlayer (demoState 1 0 Color.red 0) 1 1).1.player.x = 2 ∧
    (movePlayer (demoState 1 0 Color.red 0) 1 1).1.player.y = 1 ∧
    (movePlayer (demoState 1 0 Color.red 0) 1 1).2 = Outcome.continued := by
  decide

/-- C8 amended: the move operation applies no direction-shape validation:
even a request that is not a unit-magnitude 4-directional step is committed
whenever its target is walkable (only the keyboard adapter restricts inputs
to unit vectors). -/
theorem nonunit_move_committed (g : GameState) (dx dy : Int)
    (_hnu : ¬((dx = 0 ∧ (dy = 1 ∨ dy = -1)) ∨ (dy = 0 ∧ (dx = 1 ∨ dx = -1))))
    (hw : g.isWalkable (g.player.x + dx) (g.player.y + dy) = true) :
    (movePlayer g dx dy).1.player.x = g.player.x + dx ∧
    (movePlayer g dx dy).1.player.y = g.player.y + dy ∧
    (movePlayer g dx dy).1.player.moveCount = g.player.moveCount + 1 := by
  unfold movePlayer
  rw [if_pos hw]
  have hm := interaction_preserves_motion
    { g with player := g.player.moveTo (g.player.x + dx) (g.player.y + dy) }
  exact ⟨hm.1, hm.2.1, hm.2.2.1⟩

/-- Witness for the amended C8 at concrete inputs: the two-cell request
(2, 0) from (1, 0) is committed. -/
theorem nonunit_move_committed_witness :
    ¬(((2 : Int) = 0 ∧ ((0 : Int) = 1 ∨ (0 : Int) = -1)) ∨
      ((0 : Int) = 0 ∧ ((2 : Int) = 1 ∨ (2 : Int) = -1))) ∧
    (movePlayer (demoState 1 0 Color.red 0) 2 0).1.player.x = 3 := by
  refine ⟨by decide, ?_⟩
  exact (nonunit_move_committed (demoState 1 0 Color.red 0) 2 0 (by decide)
    (by decide)).1

/-- C5: a locked Door with zero keys kills and stays locked; a locked Door
with at least one key consumes exactly one key, unlocks, and continues;
an already-unlocked Door continues with no key consumed. -/
theorem door_move_resolution (g : GameState) (dx dy : Int) (t : Tile)
    (ht : g.getTile (g.player.x + dx) (g.player.y + dy) = some t)
    (hd : t.type = TileType.door) :
    (t.locked = true → g.player.keys = 0 →
      (movePlayer g dx dy).2 = Outcome.died "You need a key to open this door!" ∧
      (movePlayer g dx dy).1.getTile (g.player.x + dx) (g.player.y + dy) = some t ∧
      (movePlayer g dx dy).1.player.keys = 0) ∧
    (t.locked = true → 0 < g.player.keys →
      (movePlayer g dx dy).2 = Outcome.continued ∧
      (movePlayer g dx dy).1.player.keys = g.player.keys - 1 ∧
      (movePlayer g dx dy).1.getTile (g.player.x + dx) (g.player.y + dy) =
        some { t with locked := false }) ∧
    (t.locked = false →
      (movePlayer g dx dy).2 = Outcome.continued ∧
      (movePlayer g dx dy).1.player.keys = g.player.keys ∧
      (movePlayer g dx dy).1.tiles = g.tiles) := by
  have hob : t.type ≠ TileType.obstacle := by rw [hd]; simp
  have ht2 : tileAt g.width g.height g.tiles (g.player.x + dx) (g.player.y + dy) = some t := ht
  rw [movePlayer_eq_interaction g dx dy t ht hob]
  obtain ⟨ty, tc, tl, tcol, tu, tq, ta⟩ := t
  have hd' : ty = TileType.door := hd
  subst hd'
  simp only [handleTileInteraction, GameState.getTile, Player.moveTo]
  simp only [ht2]
  refine ⟨fun hl hk0 => ?_, fun hl hkpos => ?_, fun hl => ?_⟩
  · rw [if_pos hl]
    simp only [Player.useKey, hk0]
    rw [if_neg (by decide)]
    exact ⟨rfl, ht2, rfl⟩
  · rw [if_pos hl]
    simp only [Player.useKey]
    rw [if_pos (show g.player.keys > 0 from hkpos)]
    refine ⟨rfl, rfl, ?_⟩
    exact tileAt_setTile_self g (g.player.x + dx) (g.player.y + dy) _
      { type := TileType.door, color := tc, locked := false, collected := tcol,
        used := tu, question := tq, answer := ta } ht
  · rw [if_neg (by simp [hl])]
    exact ⟨rfl, rfl, rfl⟩

/-- Witness for C5 at concrete inputs: a keyless player dies on the locked
door; a player with one key unlocks it and is left with zero keys; the
unlocked door consumes nothing. -/
theorem door_move_resolution_witness :
    (movePlayer (demoState 5 0 Color.neutral 0) 1 0).2 =
      Outcome.died "You need a key to open this door!" ∧
    (movePlayer (demoState 5 0 Color.neutral 1) 1 0).2 = Outcome.continued ∧
    (movePlayer (demoState 5 0 Color.neutral 1) 1 0).1.player.keys = 0 ∧
    (movePlayer (demoState 5 0 Color.neutral 1) 1 0).1.getTile 6 0 =
      some { type := TileType.door, color := some Color.neutral, locked := false } ∧
    (movePlayer (demoState 5 1 Color.neutral 3) (-1) 0).2 = Outcome.continued ∧
    (movePlayer (demoState 5 1 Color.neutral 3) (-1) 0).1.player.keys = 3 := by
  refine ⟨?_, ?_, ?_, ?_, ?_, ?_⟩
  · exact ((door_move_resolution (demoState 5 0 Color.neutral 0) 1 0
      { type := TileType.door, color := some Color.neutral, locked := true }
      (by decide) rfl).1 rfl rfl).1
  · exact ((door_move_resolution (demoState 5 0 Color.neutral 1) 1 0
      { type := TileType.door, color := some Color.neutral, locked := true }
      (by decide) rfl).2.1 rfl (by decide)).1
  · exact ((door_move_resolution (demoState 5 0 Color.neutral 1) 1 0
      { type := TileType.door, color := some Color.neutral, locked := true }
      (by decide) rfl).2.1 rfl (by decide)).2.1
  · exact ((door_move_resolution (demoState 5 0 Color.neutral 1) 1 0
      { type := TileType.door, color := some Color.neutral, locked := true }
      (by decide) rfl).2.1 rfl (by decide)).2.2
  · exact ((door_move_resolution (demoState 5 1 Color.neutral 3) (-1) 0
      { type := TileType.door, color := some Color.neutral, locked := false }
      (by decide) rfl).2.2 rfl).1
  · exact ((door_move_resolution (demoState 5 1 Color.neutral 3) (-1) 0
      { type := TileType.door, color := some Color.neutral, locked := false }
      (by decide) rfl).2.2 rfl).2.1

/-- A single tile interaction can only leave the `used` flag of a cell alone or
set it to true — it never clears it. -/
theorem interaction_used_monotone (g : GameState) (j i : Nat) :
    ((handleTileInteraction g).1.tiles j i).used = (g.tiles j i).used ∨
    ((handleTileInteraction g).1.tiles j i).used = true := by
  unfold handleTileInteraction
  cases hg : g.getTile g.player.x g.player.y with
  | none => simp only [hg]; left; trivial
  | some tile =>
    simp only [hg]
    cases htype : tile.type <;> simp only [htype]
    case fragile =>
      split
      · left; trivial
      · simp only [setTile]
        split
        · right; trivial
        · left; trivial
    case key =>
      split
      · simp only [setTile]
        split
        · next hcell =>
            left
            have hv := getTile_some_val g g.player.x g.player.y tile hg
            rw [hcell.1, hcell.2, hv]
        · left; trivial
      · left; trivial
    case door =>
      split
      · rcases hk : g.player.useKey with ⟨p, b⟩
        cases b
        · left; trivial
        · simp only [setTile]
          split
          · next hcell =>
              left
              have hv := getTile_some_val g g.player.x g.player.y tile hg
              rw [hcell.1, hcell.2, hv]
          · left; trivial
      · left; trivial
    all_goals
      first
        | (left; trivial)
        | (split <;> (left; trivial))

/-- Across a whole move, a cell whose `used` flag is set keeps it set. -/
theorem movePlayer_preserves_used (g : GameState) (dx dy x y : Int) (u : Tile)
    (hu : g.getTile x y = some u) (hused : u.used = true) :
    ∃ u2, (movePlayer g dx dy).1.getTile x y = some u2 ∧ u2.used = true := by
  unfold movePlayer
  split
  · obtain ⟨hx0, hxw, hy0, hyh⟩ := getTile_some_bounds g x y u hu
    have hw := (interaction_preserves_motion
      { g with player := g.player.moveTo (g.player.x + dx) (g.player.y + dy) }).2.2.2.2.1
    have hh := (interaction_preserves_motion
      { g with player := g.player.moveTo (g.player.x + dx) (g.player.y + dy) }).2.2.2.2.2
    have hmono := interaction_used_monotone
      { g with player := g.player.moveTo (g.player.x + dx) (g.player.y + dy) } y.toNat x.toNat
    refine ⟨(handleTileInteraction
      { g with player := g.player.moveTo (g.player.x + dx) (g.player.y + dy) }).1.tiles
        y.toNat x.toNat, ?_, ?_⟩
    · unfold GameState.getTile tileAt
      rw [hw, hh]
      rw [if_pos ⟨hx0, hxw, hy0, hyh⟩]
    · have hval : g.tiles y.toNat x.toNat = u := getTile_some_val g x y u hu
      rcases hmono with hm | hm
      · rw [hm]
        show (g.tiles y.toNat x.toNat).used = true
        rw [hval]
        exact hused
      · exact hm
  · exact ⟨u, hu, hused⟩

/-- C6: the first arrival on a Fragile tile continues and marks it used; an
arrival on a used Fragile tile dies; no move ever clears a set `used` flag
(only re-parsing the level via `parseTile` yields a fresh unused tile). -/
theorem fragile_move_resolution (g : GameState) (dx dy : Int) (t : Tile)
    (ht : g.getTile (g.player.x + dx) (g.player.y + dy) = some t)
    (hf : t.type = TileType.fragile) :
    (t.used = false →
      (movePlayer g dx dy).2 = Outcome.continued ∧
      (movePlayer g dx dy).1.getTile (g.player.x + dx) (g.player.y + dy) =
        some { t with used := true }) ∧
    (t.used = true →
      (movePlayer g dx dy).2 = Outcome.died "The fragile tile crumbled beneath you!" ∧
      (movePlayer g dx dy).1.tiles = g.tiles) ∧
    (∀ (g2 : GameState) (dx2 dy2 x y : Int) (u : Tile),
      g2.getTile x y = some u → u.used = true →
      ∃ u2, (movePlayer g2 dx2 dy2).1.getTile x y = some u2 ∧ u2.used = true) ∧
    (parseTile "F").used = false := by
  have hob : t.type ≠ TileType.obstacle := by rw [hf]; simp
  have ht2 : tileAt g.width g.height g.tiles (g.player.x + dx) (g.player.y + dy) = some t := ht
  refine ⟨?_, ?_, fun g2 dx2 dy2 x y u hu hused =>
    movePlayer_preserves_used g2 dx2 dy2 x y u hu hused, by decide⟩
  all_goals
    rw [movePlayer_eq_interaction g dx dy t ht hob]
    obtain ⟨ty, tc, tl, tcol, tu, tq, ta⟩ := t
    have hf' : ty = TileType.fragile := hf
    subst hf'
    simp only [handleTileInteraction, GameState.getTile, Player.moveTo]
    simp only [ht2]
  · intro hu
    have hu' : tu = false := hu
    subst hu'
    rw [if_neg (by decide)]
    refine ⟨rfl, ?_⟩
    exact tileAt_setTile_self g (g.player.x + dx) (g.player.y + dy) _
      { type := TileType.fragile, color := tc, locked := tl, collected := tcol,
        used := true, question := tq, answer := ta } ht
  · intro hu
    have hu' : tu = true := hu
    subst hu'
    rw [if_pos rfl]
    exact ⟨rfl, rfl⟩

/-- Witness for C6 at concrete inputs: stepping onto the fresh fragile tile
continues and marks it used; stepping onto the already-used fragile tile
dies. -/
theorem fragile_move_resolution_witness :
    (movePlayer (demoState 3 0 Color.neutral 0) 1 0).2 = Outcome.continued ∧
    (movePlayer (demoState 3 0 Color.neutral 0) 1 0).1.getTile 4 0 =
      some { type := TileType.fragile, color := some Color.neutral, used := true } ∧
    (movePlayer (demoState 3 0 Color.neutral 0) 0 1).2 =
      Outcome.died "The fragile tile crumbled beneath you!" := by
  refine ⟨?_, ?_, ?_⟩
  · exact ((fragile_move_resolution (demoState 3 0 Color.neutral 0) 1 0
      { type := TileType.fragile, color := some Color.neutral, used := false }
      (by decide) rfl).1 rfl).1
  · exact ((fragile_move_resolution (demoState 3 0 Color.neutral 0) 1 0
      { type := TileType.fragile, color := some Color.neutral, used := false }
      (by decide) rfl).1 rfl).2
  · exact ((fragile_move_resolution (demoState 3 0 Color.neutral 0) 0 1
      { type := TileType.fragile, color := some Color.neutral, used := true }
      (by decide) rfl).2.1 rfl).1

/-- A level descriptor whose math-gate metadata addresses a plain ground
tile rather than a math gate. -/
def badGateLevel : Level :=
  { name := "bad", width := 2, height := 1, startPos := (0, 0), goalPos := (1, 0)
    targetMoves := some 5
    mathGates := [{ x := 1, y := 0, question := "3 + 2", answer := 5 }]
    grid := [["N", "N"]] }

/-- C7 counterexample: loading a level whose math-gate binding does not
address a MathGate tile succeeds — there is no `ConfigurationError` anywhere
in `loadLevel` — and the binding is silently dropped: the addressed cell
stays a plain ground tile with no question attached. -/
theorem loadLevel_bad_gate_counterexample :
    (loadLevel [badGateLevel] 0).isSome = true ∧
    ((loadLevel [badGateLevel] 0).getD (parseGrid badGateLevel)) 0 1 =
      { type := TileType.ground, color := some Color.neutral } ∧
    (((loadLevel [badGateLevel] 0).getD (parseGrid badGateLevel)) 0 1).question = none := by
  decide

/-- The math-gate application loop leaves the grid untouched whenever none
of the listed gates addresses a math-gate tile. -/
theorem applyMathGatesAux_skips_nongates (w h : Nat) (gates : List MathGateDef)
    (tiles : Tiles)
    (hng : ∀ gate ∈ gates, ∀ t, tileAt w h tiles gate.x gate.y = some t →
      t.type ≠ TileType.mathGate) :
    applyMathGatesAux w h gates tiles = tiles := by
  revert hng
  induction gates with
  | nil => intro hng; rfl
  | cons gate rest ih =>
    intro hng
    unfold applyMathGatesAux
    simp only [List.foldl_cons]
    cases hgt : tileAt w h tiles gate.x gate.y with
    | none =>
        simp only [hgt]
        exact ih fun g2 hg2 t2 hti => hng g2 (List.mem_cons_of_mem _ hg2) t2 hti
    | some t =>
        have hnm := hng gate (List.mem_cons_self _ _) t hgt
        simp only [hgt, if_neg hnm]
        exact ih fun g2 hg2 t2 hti => hng g2 (List.mem_cons_of_mem _ hg2) t2 hti

/-- C7 amended: `loadLevel` never fails because of math-gate metadata — any
in-range level index loads successfully, and bindings whose coordinates do
not address a MathGate tile are silently skipped, leaving the parsed grid
unchanged. -/
theorem loadLevel_ignores_bad_gate_bindings (levels : List Level) (levelIndex : Int)
    (h0 : 0 ≤ levelIndex) (h1 : levelIndex < (levels.length : Int))
    (w h : Nat) (gates : List MathGateDef) (tiles : Tiles)
    (hng : ∀ gate ∈ gates, ∀ t, tileAt w h tiles gate.x gate.y = some t →
      t.type ≠ TileType.mathGate) :
    (loadLevel levels levelIndex).isSome = true ∧
    applyMathGatesAux w h gates tiles = tiles := by
  constructor
  · unfold loadLevel
    rw [if_neg (by omega)]
    rfl
  · exact applyMathGatesAux_skips_nongates w h gates tiles hng

/-- Witness for the amended C7 at concrete inputs: the bad-binding level
loads and its single mis-addressed gate entry leaves the grid unchanged. -/
theorem loadLevel_ignores_bad_gate_bindings_witness :
    (loadLevel [badGateLevel] 0).isSome = true ∧
    applyMathGatesAux 2 1 badGateLevel.mathGates (parseGrid badGateLevel) =
      parseGrid badGateLevel := by
  have hng : ∀ gate ∈ badGateLevel.mathGates, ∀ t,
      tileAt 2 1 (parseGrid badGateLevel) gate.x gate.y = some t →
      t.type ≠ TileType.mathGate := by
    intro gate hg t hti
    have hgate : gate = { x := 1, y := 0, question := "3 + 2", answer := 5 } := by
      simpa [badGateLevel] using hg
    subst hgate
    have hv : tileAt 2 1 (parseGrid badGateLevel) 1 0 =
        some { type := TileType.ground, color := some Color.neutral } := by decide
    rw [hv] at hti
    cases hti
    decide
  exact loadLevel_ignores_bad_gate_bindings [badGateLevel] 0 (by decide) (by decide)
    2 1 badGateLevel.mathGates (parseGrid badGateLevel) hng

/-- C9 counterexample: at `targetMoves = 7` the ceiling of `7 × 1.3 = 9.1`
is 10 (computed as the Nat ceiling division `(13 * 7 + 9) / 10`), but
`calculateStars 10 7 = 1`, not the 2 stars the claim asserts at that
boundary. -/
theorem star_boundary_counterexample :
    (13 * 7 + 9) / 10 = 10 ∧ calculateStars ((13 * 7 + 9) / 10) 7 = 1 := by
  decide

/-- C9 amended: the star rating is monotonically non-increasing in the move
count; `calculateStars t t = 3`; the inclusive 2-star boundary sits at
`floor(t * 1.3)` (for `t ≥ 4`, where that floor exceeds `t`), with one more
move dropping to 1 star; and the tiers are exactly `moveCount ≤ t` for 3,
`t < moveCount ≤ 1.3 t` for 2, and `1.3 t < moveCount` for 1. -/
theorem calculateStars_spec (t m m1 m2 : Nat) :
    (m1 ≤ m2 → calculateStars m2 t ≤ calculateStars m1 t) ∧
    calculateStars t t = 3 ∧
    (4 ≤ t → calculateStars (13 * t / 10) t = 2 ∧ calculateStars (13 * t / 10 + 1) t = 1) ∧
    (calculateStars m t = 3 ↔ m ≤ t) ∧
    (calculateStars m t = 2 ↔ t < m ∧ 10 * m ≤ 13 * t) ∧
    (calculateStars m t = 1 ↔ 13 * t < 10 * m) := by
  unfold calculateStars
  refine ⟨fun h12 => ?_, ?_, fun h4 => ?_, ?_, ?_, ?_⟩ <;>
    split_ifs <;> omega

/-- Witness for the amended C9 at concrete inputs: at target 10, 13 moves
(the floor of `10 × 1.3`) still earn 2 stars and 14 earn 1; monotonicity
applied at 5 ≤ 12 with target 10. -/
theorem calculateStars_spec_witness :
    calculateStars 12 10 ≤ calculateStars 5 10 ∧
    calculateStars 10 10 = 3 ∧
    (13 * 10 / 10 = 13 ∧ calculateStars 13 10 = 2 ∧ calculateStars 14 10 = 1) := by
  refine ⟨(calculateStars_spec 10 5 5 12).1 (by decide),
    (calculateStars_spec 10 5 5 12).2.1, by decide,
    ((calculateStars_spec 10 5 5 12).2.2.1 (by decide)).1,
    ((calculateStars_spec 10 5 5 12).2.2.1 (by decide)).2⟩

/-- C10: undo touches only player fields and never grid tile flags. Undoing
never changes the tiles; after a move onto a fresh Fragile tile and an undo,
the tile stays used (so repeating the move dies); after a move collecting a
Key and an undo, the key count is rolled back while the tile stays
collected, so repeating the move re-collects nothing. -/
theorem undoMove_frame_on_tiles (g : GameState) (dx dy : Int) (t : Tile)
    (ht : g.getTile (g.player.x + dx) (g.player.y + dy) = some t) :
    (undoMove g).tiles = g.tiles ∧
    (t.type = TileType.fragile → t.used = false →
      undoMove (movePlayer g dx dy).1 =
        { g with tiles := (setTile g.tiles (g.player.x + dx) (g.player.y + dy)
            { t with used := true }) } ∧
      (movePlayer (undoMove (movePlayer g dx dy).1) dx dy).2 =
        Outcome.died "The fragile tile crumbled beneath you!") ∧
    (t.type = TileType.key → t.collected = false →
      (movePlayer g dx dy).1.player.keys = g.player.keys + 1 ∧
      undoMove (movePlayer g dx dy).1 =
        { g with tiles := (setTile g.tiles (g.player.x + dx) (g.player.y + dy)
            { t with collected := true }) } ∧
      (movePlayer (undoMove (movePlayer g dx dy).1) dx dy).1.player.keys =
        g.player.keys) := by
  have ht2 : tileAt g.width g.height g.tiles (g.player.x + dx) (g.player.y + dy) = some t := ht
  refine ⟨rfl, fun hf hu => ?_, fun hk hc => ?_⟩
  · have hob : t.type ≠ TileType.obstacle := by rw [hf]; simp
    rw [movePlayer_eq_interaction g dx dy t ht hob]
    obtain ⟨ty, tc, tl, tcol, tu, tq, ta⟩ := t
    have hf' : ty = TileType.fragile := hf
    subst hf'
    have hu' : tu = false := hu
    subst hu'
    have hmv : handleTileInteraction
        { g with player := g.player.moveTo (g.player.x + dx) (g.player.y + dy) } =
        ({ width := g.width, height := g.height
           tiles := setTile g.tiles (g.player.x + dx) (g.player.y + dy)
             ⟨TileType.fragile, tc, tl, tcol, true, tq, ta⟩
           player := g.player.moveTo (g.player.x + dx) (g.player.y + dy) },
         Outcome.continued) := by
      simp only [handleTileInteraction, GameState.getTile, Player.moveTo]
      simp only [ht2]
      rw [if_neg (by decide)]
    rw [hmv]
    have hundo : undoMove
        { width := g.width, height := g.height
          tiles := setTile g.tiles (g.player.x + dx) (g.player.y + dy)
            ⟨TileType.fragile, tc, tl, tcol, true, tq, ta⟩
          player := g.player.moveTo (g.player.x + dx) (g.player.y + dy) } =
        { width := g.width, height := g.height
          tiles := setTile g.tiles (g.player.x + dx) (g.player.y + dy)
            ⟨TileType.fragile, tc, tl, tcol, true, tq, ta⟩
          player := g.player } := rfl
    refine ⟨hundo, ?_⟩
    rw [hundo]
    have ht3 : GameState.getTile
        { width := g.width, height := g.height
          tiles := setTile g.tiles (g.player.x + dx) (g.player.y + dy)
            ⟨TileType.fragile, tc, tl, tcol, true, tq, ta⟩
          player := g.player } (g.player.x + dx) (g.player.y + dy) =
        some ⟨TileType.fragile, tc, tl, tcol, true, tq, ta⟩ :=
      tileAt_setTile_self g (g.player.x + dx) (g.player.y + dy) _ _ ht
    rw [movePlayer_eq_interaction _ dx dy _ ht3 (by simp)]
    simp only [handleTileInteraction, GameState.getTile, Player.moveTo, setTile]
    simp only [show tileAt g.width g.height (setTile g.tiles (g.player.x + dx) (g.player.y + dy)
      ⟨TileType.fragile, tc, tl, tcol, true, tq, ta⟩) (g.player.x + dx) (g.player.y + dy) =
      some ⟨TileType.fragile, tc, tl, tcol, true, tq, ta⟩ from ht3]
    rw [if_pos trivial]
  · have hob : t.type ≠ TileType.obstacle := by rw [hk]; simp
    rw [movePlayer_eq_interaction g dx dy t ht hob]
    obtain ⟨ty, tc, tl, tcol, tu, tq, ta⟩ := t
    have hk' : ty = TileType.key := hk
    subst hk'
    have hc' : tcol = false := hc
    subst hc'
    have hmv : handleTileInteraction
        { g with player := g.player.moveTo (g.player.x + dx) (g.player.y + dy) } =
        ({ width := g.width, height := g.height
           tiles := setTile g.tiles (g.player.x + dx) (g.player.y + dy)
             ⟨TileType.key, tc, tl, true, tu, tq, ta⟩
           player := (g.player.moveTo (g.player.x + dx) (g.player.y + dy)).addKey },
         Outcome.continued) := by
      simp only [handleTileInteraction, GameState.getTile, Player.moveTo]
      simp only [ht2]
      rw [if_pos (by decide)]
    rw [hmv]
    have hundo : undoMove
        { width := g.width, height := g.height
          tiles := setTile g.tiles (g.player.x + dx) (g.player.y + dy)
            ⟨TileType.key, tc, tl, true, tu, tq, ta⟩
          player := (g.player.moveTo (g.player.x + dx) (g.player.y + dy)).addKey } =
        { width := g.width, height := g.height
          tiles := setTile g.tiles (g.player.x + dx) (g.player.y + dy)
            ⟨TileType.key, tc, tl, true, tu, tq, ta⟩
          player := g.player } := rfl
    refine ⟨rfl, hundo, ?_⟩
    rw [hundo]
    have ht3 : GameState.getTile
        { width := g.width, height := g.height
          tiles := setTile g.tiles (g.player.x + dx) (g.player.y + dy)
            ⟨TileType.key, tc, tl, true, tu, tq, ta⟩
          player := g.player } (g.player.x + dx) (g.player.y + dy) =
        some ⟨TileType.key, tc, tl, true, tu, tq, ta⟩ :=
      tileAt_setTile_self g (g.player.x + dx) (g.player.y + dy) _ _ ht
    rw [movePlayer_eq_interaction _ dx dy _ ht3 (by simp)]
    simp only [handleTileInteraction, GameState.getTile, Player.moveTo]
    simp only [show tileAt g.width g.height (setTile g.tiles (g.player.x + dx) (g.player.y + dy)
      ⟨TileType.key, tc, tl, true, tu, tq, ta⟩) (g.player.x + dx) (g.player.y + dy) =
      some ⟨TileType.key, tc, tl, true, tu, tq, ta⟩ from ht3]
    rw [if_neg (by decide)]

/-- Witness for C10 at concrete inputs: after stepping onto the fresh
fragile tile and undoing, re-stepping dies; after collecting the key (one
key gained), undoing rolls the count back to zero and re-stepping collects
nothing. -/
theorem undoMove_frame_on_tiles_witness :
    (undoMove (demoState 3 0 Color.neutral 0)).tiles =
      (demoState 3 0 Color.neutral 0).tiles ∧
    (movePlayer (undoMove (movePlayer (demoState 3 0 Color.neutral 0) 1 0).1) 1 0).2 =
      Outcome.died "The fragile tile crumbled beneath you!" ∧
    (movePlayer (demoState 4 0 Color.neutral 0) 1 0).1.player.keys = 1 ∧
    (movePlayer (undoMove (movePlayer (demoState 4 0 Color.neutral 0) 1 0).1) 1 0).1.player.keys = 0 := by
  refine ⟨(undoMove_frame_on_tiles (demoState 3 0 Color.neutral 0) 1 0
      { type := TileType.fragile, color := some Color.neutral, used := false }
      (by decide)).1, ?_, ?_, ?_⟩
  · exact ((undoMove_frame_on_tiles (demoState 3 0 Color.neutral 0) 1 0
      { type := TileType.fragile, color := some Color.neutral, used := false }
      (by decide)).2.1 rfl rfl).2
  · exact ((undoMove_frame_on_tiles (demoState 4 0 Color.neutral 0) 1 0
      { type := TileType.key, color := some Color.neutral, collected := false }
      (by decide)).2.2 rfl rfl).1
  · exact ((undoMove_frame_on_tiles (demoState 4 0 Color.neutral 0) 1 0
      { type := TileType.key, color := some Color.neutral, collected := false }
      (by decide)).2.2 rfl rfl).2.2

end ColorPath
